import Mathlib

/-!
Verification of `src/tools/validate-prompt-stack.py` (prompt-stack config
validator).  The script is embedded shallowly: parsed YAML/JSON documents
become the inductive type `Yaml`, the Python attribute/`in`/iteration
semantics used by the script become explicit `Except`-valued helpers, and
`main` becomes a pure function from an environment (file system plus the
library entry points `yaml.safe_load`, `json.load`, `jsonschema.validate`)
and an argument vector to a run result (stdout lines, exit code, uncaught
exception, files opened).
-/

namespace ValidatePromptStack

/-- A parsed YAML/JSON document.  Mappings are kept in document (insertion)
order, as Python dicts are; the script only ever looks up string keys, so keys
are modelled as strings. -/
inductive Yaml where
  | null : Yaml
  | bool : Bool → Yaml
  | int : Int → Yaml
  | str : String → Yaml
  | seq : List Yaml → Yaml
  | map : List (String × Yaml) → Yaml
deriving Repr

/-- Kinds of Python exception the script can raise (all of them propagate
uncaught: the script handles only `jsonschema.ValidationError`). -/
inductive PyError where
  | ioError : String → PyError
  | yamlError : PyError
  | jsonError : PyError
  | attributeError : PyError
  | typeError : PyError
deriving Repr, DecidableEq

/-- Structural equality on parsed documents, used only for Python's `in` on
sequences. -/
def Yaml.beq : Yaml → Yaml → Bool
  | .null, .null => true
  | .bool a, .bool b => a == b
  | .int a, .int b => a == b
  | .str a, .str b => a == b
  | .seq as, .seq bs => beqL as bs
  | .map as, .map bs => beqE as bs
  | _, _ => false
where
  beqL : List Yaml → List Yaml → Bool
    | [], [] => true
    | a :: as, b :: bs => Yaml.beq a b && beqL as bs
    | _, _ => false
  beqE : List (String × Yaml) → List (String × Yaml) → Bool
    | [], [] => true
    | (k, v) :: as, (l, w) :: bs => k == l && Yaml.beq v w && beqE as bs
    | _, _ => false

instance : BEq Yaml := ⟨Yaml.beq⟩

def Yaml.isMap : Yaml → Bool
  | .map _ => true
  | _ => false

/-- Python `v.get(k, d)` as the script uses it: defined on dicts, an
`AttributeError` on every other value (`None`, scalars, lists). -/
def pyGetD (v : Yaml) (k : String) (d : Yaml) : Except PyError Yaml :=
  match v with
  | .map es => .ok ((es.lookup k).getD d)
  | _ => .error .attributeError

/-- Python `v.items()`: the key/value pairs of a dict in insertion order, an
`AttributeError` otherwise. -/
def pyItems (v : Yaml) : Except PyError (List (String × Yaml)) :=
  match v with
  | .map es => .ok es
  | _ => .error .attributeError

/-- Python iteration `for m in v`: list elements, dict keys, the characters of
a string; a `TypeError` on non-iterable values. -/
def pyIter (v : Yaml) : Except PyError (List Yaml) :=
  match v with
  | .seq xs => .ok xs
  | .map es => .ok (es.map fun e => .str e.1)
  | .str s => .ok (s.data.map fun c => .str (String.mk [c]))
  | _ => .error .typeError

/-- Python substring test `t in s` for strings. -/
def strIn (t s : String) : Bool :=
  (List.range (s.length + 1)).any fun i => (s.data.drop i).take t.data.length == t.data

/-- Python `m in v` for a dict `v`: key membership.  Unhashable operands
(lists, dicts) raise `TypeError`; keys in this model are strings, so any other
non-string operand is simply not a key. -/
def pyInMap (m : Yaml) (es : List (String × Yaml)) : Except PyError Bool :=
  match m with
  | .seq _ => .error .typeError
  | .map _ => .error .typeError
  | .str s => .ok (es.any fun e => e.1 == s)
  | _ => .ok false

/-- Python membership `m in v`: dict-key membership, sequence membership,
substring test; a `TypeError` on non-container values. -/
def pyContains (m v : Yaml) : Except PyError Bool :=
  match v with
  | .map es => pyInMap m es
  | .seq xs => .ok (xs.any fun x => x == m)
  | .str s =>
    match m with
    | .str t => .ok (strIn t s)
    | _ => .error .typeError
  | _ => .error .typeError

/-- Python `str()` of a value interpolated into the warning f-string.  Scalars
follow Python's rendering.  A list or dict candidate can reach the print only
when the `models` value is itself a non-dict container (membership against a
dict raises `TypeError` first); no claim exercises that corner, and the
container repr is abbreviated here. -/
def pyStr : Yaml → String
  | .null => "None"
  | .bool true => "True"
  | .bool false => "False"
  | .int n => toString n
  | .str s => s
  | .seq _ => "<list>"
  | .map _ => "<dict>"

/-- The warning line printed for role `role` and candidate rendering `m`
(source line 35). -/
def warningLine (role m : String) : String :=
  "Warning: role \"" ++ role ++ "\" references unknown model \"" ++ m ++ "\""

/-- Inner loop of the advisory check (source lines 33-35): one role's
candidates, in sequence order.  Returns the warning lines printed before
either the list is exhausted or an exception is raised. -/
def scanCandidates (cfg : Yaml) (role : String) : List Yaml → List String × Option PyError
  | [] => ([], none)
  | m :: ms =>
    match pyGetD cfg "models" (.map []) with
    | .error e => ([], some e)
    | .ok models =>
      match pyContains m models with
      | .error e => ([], some e)
      | .ok b =>
        let head := if b then [] else [warningLine role (pyStr m)]
        let rest := scanCandidates cfg role ms
        (head ++ rest.1, rest.2)

/-- Outer loop of the advisory check (source lines 32-35): the roles in
document order. -/
def scanRoles (cfg : Yaml) : List (String × Yaml) → List String × Option PyError
  | [] => ([], none)
  | (role, defn) :: rs =>
    match pyGetD defn "candidates" (.seq []) with
    | .error e => ([], some e)
    | .ok cands =>
      match pyIter cands with
      | .error e => ([], some e)
      | .ok ms =>
        match scanCandidates cfg role ms with
        | (lines, some e) => (lines, some e)
        | (lines, none) =>
          let rest := scanRoles cfg rs
          (lines ++ rest.1, rest.2)

/-- The advisory cross-reference check (source lines 32-35): the warning lines
printed, and the uncaught exception if one is raised. -/
def advisory (cfg : Yaml) : List String × Option PyError :=
  match pyGetD cfg "roles" (.map []) with
  | .error e => ([], some e)
  | .ok roles =>
    match pyItems roles with
    | .error e => ([], some e)
    | .ok rs => scanRoles cfg rs

/-- Fixed schema path (source line 12). -/
def SCHEMA_PATH : String := "docs/prompt-stack.schema.json"

/-- Usage message (source line 17). -/
def usageLine : String := "Usage: validate-prompt-stack.py <path-to-prompt-stack.yaml>"

/-- The environment a run executes in: the file system (`none` = missing or
unreadable) and the three library entry points the script calls.
`yaml.safe_load` and `json.load` either produce a parsed document or raise;
`jsonschema.validate` either returns (`none`) or raises a `ValidationError`
whose printed description is the given string. -/
structure Env where
  fs : String → Option String
  safe_load : String → Except PyError Yaml
  json_load : String → Except PyError Yaml
  validate : Yaml → Yaml → Option String

/-- Observable outcome of a run: the lines printed to stdout (one entry per
`print` call), the `sys.exit` code if one was reached, the uncaught exception
if one propagated, and the files opened, in order. -/
structure RunResult where
  stdout : List String
  exit : Option Nat
  err : Option PyError
  opened : List String

/-- Source lines 30-36: behaviour after schema validation succeeded. -/
def successRun (cfg : Yaml) (opened : List String) : RunResult :=
  match advisory cfg with
  | (warns, none) =>
    ⟨"Validation passed (advisory)." :: (warns ++ ["Done."]), some 0, none, opened⟩
  | (warns, some e) =>
    ⟨"Validation passed (advisory)." :: warns, none, some e, opened⟩

/-- Source lines 19-36: behaviour once a configuration path is present. -/
def withConfig (env : Env) (cfg_path : String) : RunResult :=
  match env.fs cfg_path with
  | none => ⟨[], none, some (.ioError cfg_path), [cfg_path]⟩
  | some text =>
    match env.safe_load text with
    | .error e => ⟨[], none, some e, [cfg_path]⟩
    | .ok cfg =>
      match env.fs SCHEMA_PATH with
      | none => ⟨[], none, some (.ioError SCHEMA_PATH), [cfg_path, SCHEMA_PATH]⟩
      | some stext =>
        match env.json_load stext with
        | .error e => ⟨[], none, some e, [cfg_path, SCHEMA_PATH]⟩
        | .ok schema =>
          match env.validate cfg schema with
          | some msg => ⟨["Validation failed:", msg], some 1, none, [cfg_path, SCHEMA_PATH]⟩
          | none => successRun cfg [cfg_path, SCHEMA_PATH]

/-- The whole script (source lines 15-36).  `argv` is `sys.argv`, program name
included. -/
def main (env : Env) (argv : List String) : RunResult :=
  match argv with
  | _ :: cfg_path :: _ => withConfig env cfg_path
  | _ => ⟨[usageLine], some 2, none, []⟩

/-! ## Spec-side description of the advisory check

The definitions below follow the wording of the specification (§4.1,
"Algorithm for the advisory check") rather than the source, so that the
source's loop can be proved to refine them. -/

def strOf? : Yaml → Option String
  | .str s => some s
  | _ => none

/-- Spec §4.1: "Obtain the `roles` mapping from the parsed configuration; if
absent, treat as empty" — the role/definition pairs in document order. -/
def specRolesItems (cfg : Yaml) : List (String × Yaml) :=
  match cfg with
  | .map es =>
    match es.lookup "roles" with
    | some (.map rs) => rs
    | _ => []
  | _ => []

/-- Spec §4.1: "obtain its `candidates` sequence; if absent, treat as empty" —
the candidate model names of one role definition, in sequence order. -/
def specCandidates (defn : Yaml) : List String :=
  match defn with
  | .map es =>
    match es.lookup "candidates" with
    | some (.seq ms) => ms.filterMap strOf?
    | _ => []
  | _ => []

/-- Spec §4.1: the keys of the `models` mapping ("or `models` is absent, in
which case treat as empty"). -/
def specModelKeys (cfg : Yaml) : List String :=
  match cfg with
  | .map es =>
    match es.lookup "models" with
    | some (.map ms) => ms.map Prod.fst
    | _ => []
  | _ => []

/-- Spec §4.1: the warning lines one role contributes — its candidates that
are not keys of `models`, in sequence order, no deduplication. -/
def specRoleWarnings (cfg : Yaml) (rc : String × Yaml) : List String :=
  ((specCandidates rc.2).filter fun m => !((specModelKeys cfg).any fun k => k == m)).map
    fun m => warningLine rc.1 m

/-- Spec §4.1: all warning lines, role order first, candidate order within
each role. -/
def specWarnings (cfg : Yaml) : List String :=
  (specRolesItems cfg).flatMap (specRoleWarnings cfg)

/-! ## Schema conformance

The JSON Schema itself lives at `docs/prompt-stack.schema.json`, outside the
provided source tree, so conformance is modelled from the specification. -/

/-- Modelled from the spec: §3's shape of one role definition object — a
mapping whose `candidates` field, when present, is "an ordered sequence of
model-name strings" (§4.1 allows it to be absent). -/
def defnOk (d : Yaml) : Bool :=
  match d with
  | .map es =>
    match es.lookup "candidates" with
    | none => true
    | some (.seq ms) => ms.all fun m => (strOf? m).isSome
    | some _ => false
  | _ => false

/-- Modelled from the spec: the shape of the `roles` value — "mapping from
role name (string) to a role definition object" (§3), absent allowed (§4.1). -/
def rolesShapeOk (o : Option Yaml) : Bool :=
  match o with
  | none => true
  | some (.map rs) => rs.all fun rc => defnOk rc.2
  | some _ => false

/-- Modelled from the spec: the shape of the `models` value — "mapping from
model name (string) to a model definition object (contents unconstrained)"
(§3), absent allowed (§4.1). -/
def modelsShapeOk (o : Option Yaml) : Bool :=
  match o with
  | none => true
  | some (.map _) => true
  | some _ => false

/-- Modelled from the spec: §3's data model of a configuration document that
conforms to the schema at `docs/prompt-stack.schema.json` (the schema file is
not part of the provided source).  The document is "a mapping from string keys
to arbitrary nested values"; `roles`, when present, is a mapping from role
name to role definition; `models`, when present, is a mapping from model name
to model definition. -/
def wellShaped (cfg : Yaml) : Bool :=
  match cfg with
  | .map es => rolesShapeOk (es.lookup "roles") && modelsShapeOk (es.lookup "models")
  | _ => false

/-! ## The advisory loop refines the spec's description -/

theorem any_keys (mods : List (String × Yaml)) (s : String) :
    ((mods.map Prod.fst).any fun k => k == s) = mods.any fun e => e.1 == s := by
  induction mods with
  | nil => rfl
  | cons e ms ih => simp only [List.map_cons, List.any_cons, ih]

theorem pyContains_str_eq (es : List (String × Yaml))
    (hm : modelsShapeOk (es.lookup "models") = true) (s : String) :
    pyContains (.str s) ((es.lookup "models").getD (.map [])) =
      .ok ((specModelKeys (.map es)).any fun k => k == s) := by
  rcases hml : es.lookup "models" with _ | mv
  · simp [pyContains, pyInMap, specModelKeys, hml]
  · rcases mv with _ | _ | _ | _ | _ | mods <;>
      simp [modelsShapeOk, hml, pyContains, pyInMap, specModelKeys] at hm ⊢
    rw [any_keys]

theorem scanCandidates_spec (es : List (String × Yaml))
    (hm : modelsShapeOk (es.lookup "models") = true)
    (role : String) (ms : List Yaml) (hs : ∀ m ∈ ms, (strOf? m).isSome) :
    scanCandidates (.map es) role ms =
      (((ms.filterMap strOf?).filter fun s =>
          !((specModelKeys (.map es)).any fun k => k == s)).map (warningLine role), none) := by
  induction ms with
  | nil => simp [scanCandidates]
  | cons m ms ih =>
    have hm1 := hs m (List.mem_cons_self m ms)
    have hrest : ∀ x ∈ ms, (strOf? x).isSome := fun x hx => hs x (List.mem_cons_of_mem m hx)
    obtain ⟨s, rfl⟩ : ∃ s, m = Yaml.str s := by
      cases m <;> simp [strOf?] at hm1 ⊢
    have ih' := ih hrest
    cases hmem : ((specModelKeys (.map es)).any fun k => k == s) <;>
      simp [scanCandidates, pyGetD, pyContains_str_eq es hm, hmem, ih', pyStr, strOf?]

theorem scanRoles_spec (es : List (String × Yaml))
    (hm : modelsShapeOk (es.lookup "models") = true)
    (rs : List (String × Yaml)) (hr : ∀ rc ∈ rs, defnOk rc.2 = true) :
    scanRoles (.map es) rs = (rs.flatMap (specRoleWarnings (.map es)), none) := by
  induction rs with
  | nil => simp [scanRoles]
  | cons rc rs ih =>
    obtain ⟨role, defn⟩ := rc
    have hd := hr _ (List.mem_cons_self _ rs)
    have hrest : ∀ x ∈ rs, defnOk x.2 = true := fun x hx => hr x (List.mem_cons_of_mem _ hx)
    have ih' := ih hrest
    rcases defn with _ | _ | _ | _ | _ | dEs <;> simp [defnOk] at hd
    rcases hc : dEs.lookup "candidates" with _ | cv
    · simp [scanRoles, pyGetD, hc, pyIter, scanCandidates, ih', specRoleWarnings,
        specCandidates]
    · rw [hc] at hd
      rcases cv with _ | _ | _ | _ | cms | _ <;> simp at hd
      have hsc := scanCandidates_spec es hm role cms fun m hmem => by
        simpa using hd m hmem
      simp [scanRoles, pyGetD, hc, pyIter, hsc, ih', specRoleWarnings, specCandidates]

theorem advisory_spec (cfg : Yaml) (h : wellShaped cfg = true) :
    advisory cfg = (specWarnings cfg, none) := by
  rcases cfg with _ | _ | _ | _ | _ | es <;> simp [wellShaped] at h
  obtain ⟨h1, h2⟩ := h
  rcases hr : es.lookup "roles" with _ | rv
  · simp [advisory, pyGetD, hr, pyItems, scanRoles, specWarnings, specRolesItems]
  · rw [hr] at h1
    rcases rv with _ | _ | _ | _ | _ | rls <;> simp [rolesShapeOk] at h1
    have hsr := scanRoles_spec es h2 rls fun rc hmem => h1 rc.1 rc.2 hmem
    simp [advisory, pyGetD, hr, pyItems, hsr, specWarnings, specRolesItems]

/-! ## A family of concrete configurations -/

/-- A role definition with the given candidate names. -/
def mkRoleDefn (cands : List String) : Yaml :=
  .map [("candidates", .seq (cands.map .str))]

/-- A configuration document with the given roles (name and candidates, in
document order) and models. -/
def mkCfg (rs : List (String × List String)) (models : List (String × Yaml)) : Yaml :=
  .map [("roles", .map (rs.map fun rc => (rc.1, mkRoleDefn rc.2))),
        ("models", .map models)]

/-- The warning lines a single role of a `mkCfg` configuration contributes:
its candidates that are not model keys, in candidate order. -/
def roleBlock (models : List (String × Yaml)) (rc : String × List String) : List String :=
  (rc.2.filter fun m => !(models.any fun e => e.1 == m)).map (warningLine rc.1)

theorem defnOk_mkRoleDefn (cs : List String) : defnOk (mkRoleDefn cs) = true := by
  simp [defnOk, mkRoleDefn, List.lookup, strOf?]

theorem wellShaped_mkCfg (rs : List (String × List String))
    (models : List (String × Yaml)) : wellShaped (mkCfg rs models) = true := by
  simp only [wellShaped, mkCfg, rolesShapeOk, modelsShapeOk, List.lookup]
  simp only [show (("roles" : String) == "roles") = true from rfl,
    show (("models" : String) == "roles") = false from rfl,
    show (("models" : String) == "models") = true from rfl]
  simp [defnOk_mkRoleDefn]
  rintro a b x y - - rfl
  exact defnOk_mkRoleDefn y

theorem filterMap_strOf_map (cs : List String) :
    (cs.map Yaml.str).filterMap strOf? = cs := by
  induction cs with
  | nil => rfl
  | cons c cs ih => simp [List.filterMap_cons, strOf?, ih]

theorem specCandidates_mkRoleDefn (cs : List String) :
    specCandidates (mkRoleDefn cs) = cs :=
  filterMap_strOf_map cs

theorem flatMap_specRoleWarnings (cfg : Yaml) (models : List (String × Yaml))
    (h : specModelKeys cfg = models.map Prod.fst) (rs : List (String × List String)) :
    (rs.map fun rc => (rc.1, mkRoleDefn rc.2)).flatMap (specRoleWarnings cfg) =
      rs.flatMap (roleBlock models) := by
  induction rs with
  | nil => rfl
  | cons rc rs ih =>
    simp only [List.map_cons, List.flatMap_cons, ih]
    congr 1
    simp only [specRoleWarnings, specCandidates_mkRoleDefn, h, roleBlock]
    congr 1
    apply List.filter_congr
    intro m _
    rw [any_keys]

theorem specWarnings_mkCfg (rs : List (String × List String))
    (models : List (String × Yaml)) :
    specWarnings (mkCfg rs models) = rs.flatMap (roleBlock models) :=
  flatMap_specRoleWarnings (mkCfg rs models) models rfl rs

theorem advisory_mkCfg (rs : List (String × List String))
    (models : List (String × Yaml)) :
    advisory (mkCfg rs models) = (rs.flatMap (roleBlock models), none) := by
  rw [advisory_spec _ (wellShaped_mkCfg rs models), specWarnings_mkCfg]

/-! ## Shape of the emitted lines -/

theorem warningLine_length (r m : String) :
    (warningLine r m).length = 44 + r.length + m.length := by
  have h1 : ("Warning: role \"" : String).length = 15 := rfl
  have h2 : ("\" references unknown model \"" : String).length = 28 := rfl
  have h3 : ("\"" : String).length = 1 := rfl
  simp [warningLine, String.length_append, h1, h2, h3]
  omega

theorem warningLine_ne_done (r m : String) : warningLine r m ≠ "Done." := by
  intro h
  have hl := congrArg String.length h
  rw [warningLine_length] at hl
  have h5 : ("Done." : String).length = 5 := rfl
  rw [h5] at hl
  omega

theorem scanCandidates_lines (cfg : Yaml) (role : String) (ms : List Yaml) :
    ∀ s ∈ (scanCandidates cfg role ms).1, ∃ m, s = warningLine role (pyStr m) := by
  induction ms with
  | nil => simp [scanCandidates]
  | cons m ms ih =>
    intro s hs
    rcases hg : pyGetD cfg "models" (.map []) with e | mv
    · simp [scanCandidates, hg] at hs
    · rcases hc : pyContains m mv with e | b
      · simp [scanCandidates, hg, hc] at hs
      · cases b
        · simp [scanCandidates, hg, hc] at hs
          rcases hs with h | h
          · exact ⟨m, h⟩
          · exact ih s h
        · simp [scanCandidates, hg, hc] at hs
          exact ih s hs

theorem scanRoles_lines (cfg : Yaml) (rs : List (String × Yaml)) :
    ∀ s ∈ (scanRoles cfg rs).1, ∃ r m, s = warningLine r (pyStr m) := by
  induction rs with
  | nil => simp [scanRoles]
  | cons rc rs ih =>
    obtain ⟨role, defn⟩ := rc
    intro s hs
    rcases hg : pyGetD defn "candidates" (.seq []) with e | cv
    · simp [scanRoles, hg] at hs
    · rcases hi : pyIter cv with e | ms
      · simp [scanRoles, hg, hi] at hs
      · rcases hsc : scanCandidates cfg role ms with ⟨lines, oe⟩
        cases oe
        · simp [scanRoles, hg, hi, hsc] at hs
          rcases hs with h | h
          · obtain ⟨m, hm⟩ := scanCandidates_lines cfg role ms s (by rw [hsc]; exact h)
            exact ⟨role, m, hm⟩
          · exact ih s h
        · simp [scanRoles, hg, hi, hsc] at hs
          obtain ⟨m, hm⟩ := scanCandidates_lines cfg role ms s (by rw [hsc]; exact hs)
          exact ⟨role, m, hm⟩

theorem advisory_lines (cfg : Yaml) :
    ∀ s ∈ (advisory cfg).1, ∃ r m, s = warningLine r (pyStr m) := by
  intro s hs
  rcases hg : pyGetD cfg "roles" (.map []) with e | rv
  · simp [advisory, hg] at hs
  · rcases hi : pyItems rv with e | rs
    · simp [advisory, hg, hi] at hs
    · refine scanRoles_lines cfg rs s ?_
      simpa [advisory, hg, hi] using hs

theorem done_not_mem_advisory (cfg : Yaml) : "Done." ∉ (advisory cfg).1 := by
  intro h
  obtain ⟨r, m, hm⟩ := advisory_lines cfg "Done." h
  exact warningLine_ne_done r (pyStr m) hm.symm

/-! ## Error propagation in the advisory scan -/

theorem scanRoles_err_of_bad (cfg : Yaml) (rs : List (String × Yaml))
    (h : ∃ rc ∈ rs, rc.2.isMap = false) : (scanRoles cfg rs).2.isSome := by
  induction rs with
  | nil => simp at h
  | cons rc rs ih =>
    obtain ⟨role, defn⟩ := rc
    obtain ⟨bad, hmem, hbad⟩ := h
    rcases hg : pyGetD defn "candidates" (.seq []) with e | cv
    · simp [scanRoles, hg]
    · rcases hi : pyIter cv with e | ms
      · simp [scanRoles, hg, hi]
      · rcases hsc : scanCandidates cfg role ms with ⟨lines, oe⟩
        cases oe
        · rcases List.mem_cons.mp hmem with rfl | hmem'
          · rcases defn with _ | _ | _ | _ | _ | dEs <;> simp [Yaml.isMap] at hbad <;>
              simp [pyGetD] at hg
          · simp [scanRoles, hg, hi, hsc]
            exact ih ⟨bad, hmem', hbad⟩
        · simp [scanRoles, hg, hi, hsc]

theorem advisory_err_of_nonmap (cfg : Yaml) (h : cfg.isMap = false) :
    (advisory cfg).2.isSome := by
  rcases cfg with _ | _ | _ | _ | _ | es <;> simp [Yaml.isMap] at h <;>
    simp [advisory, pyGetD]

theorem advisory_err_of_bad_defn (es : List (String × Yaml))
    (rls : List (String × Yaml)) (hr : es.lookup "roles" = some (.map rls))
    (h : ∃ rc ∈ rls, rc.2.isMap = false) : (advisory (.map es)).2.isSome := by
  have : advisory (.map es) = scanRoles (.map es) rls := by
    simp [advisory, pyGetD, hr, pyItems]
  rw [this]
  exact scanRoles_err_of_bad (.map es) rls h

/-! ## The advisory scan reads only the `roles` and `models` entries -/

/-- The `models` values of two documents agree for the purposes of the scan:
they are equal, or both are mappings with the same keys in the same order. -/
def modelsAgree (o1 o2 : Option Yaml) : Prop :=
  o1 = o2 ∨ ∃ ms1 ms2, o1 = some (.map ms1) ∧ o2 = some (.map ms2) ∧
    ms1.map Prod.fst = ms2.map Prod.fst

theorem pyContains_models_congr (es1 es2 : List (String × Yaml))
    (h : modelsAgree (es1.lookup "models") (es2.lookup "models")) (m : Yaml) :
    pyContains m ((es1.lookup "models").getD (.map [])) =
      pyContains m ((es2.lookup "models").getD (.map [])) := by
  rcases h with h | ⟨ms1, ms2, h1, h2, hk⟩
  · rw [h]
  · rw [h1, h2]
    rcases m with _ | _ | _ | s | _ | _ <;> simp [pyContains, pyInMap]
    rw [← any_keys, ← any_keys, hk]

theorem scanCandidates_congr (es1 es2 : List (String × Yaml))
    (h : modelsAgree (es1.lookup "models") (es2.lookup "models"))
    (role : String) (ms : List Yaml) :
    scanCandidates (.map es1) role ms = scanCandidates (.map es2) role ms := by
  induction ms with
  | nil => rfl
  | cons m ms ih =>
    simp only [scanCandidates, pyGetD]
    rw [pyContains_models_congr es1 es2 h m, ih]

theorem scanRoles_congr (es1 es2 : List (String × Yaml))
    (h : modelsAgree (es1.lookup "models") (es2.lookup "models"))
    (rs : List (String × Yaml)) :
    scanRoles (.map es1) rs = scanRoles (.map es2) rs := by
  induction rs with
  | nil => rfl
  | cons rc rs ih =>
    obtain ⟨role, defn⟩ := rc
    have hsc : scanCandidates (Yaml.map es1) role = scanCandidates (Yaml.map es2) role :=
      funext fun ms => scanCandidates_congr es1 es2 h role ms
    simp only [scanRoles]
    rw [hsc, ih]

theorem advisory_congr (es1 es2 : List (String × Yaml))
    (hroles : es1.lookup "roles" = es2.lookup "roles")
    (hmodels : modelsAgree (es1.lookup "models") (es2.lookup "models")) :
    advisory (.map es1) = advisory (.map es2) := by
  simp only [advisory, pyGetD]
  rw [hroles]
  rcases (es2.lookup "roles").getD (.map []) with _ | _ | _ | _ | _ | rls <;>
    simp [pyItems]
  exact scanRoles_congr es1 es2 hmodels rls

/-! ## Concrete sample inputs -/

/-- Spec §8 scenario 3: a role referencing one known and one unknown model. -/
def sampleCfg : Yaml := mkCfg [("writer", ["gpt-x", "ghost-model"])] [("gpt-x", .map [])]

/-- An environment whose configuration file parses to `sampleCfg` and whose
validator accepts every document. -/
def okEnv : Env where
  fs := fun p =>
    if p = "prompt-stack.yaml" then some "cfg-text"
    else if p = SCHEMA_PATH then some "schema-text"
    else none
  safe_load := fun t => if t = "cfg-text" then .ok sampleCfg else .error .yamlError
  json_load := fun t => if t = "schema-text" then .ok (.map []) else .error .jsonError
  validate := fun _ _ => none

/-- Like `okEnv`, but the validator rejects every document. -/
def rejectEnv : Env :=
  { okEnv with validate := fun _ _ => some "None is not of type 'object'" }

/-- Like `okEnv`, but the configuration parses to YAML `null` (an empty file). -/
def nullEnv : Env :=
  { okEnv with safe_load := fun t => if t = "cfg-text" then .ok .null else .error .yamlError }

/-- An environment in which every file is missing. -/
def noFileEnv : Env :=
  { okEnv with fs := fun _ => none }

/-! ## Claims -/

/-- C1: for every configuration that passes schema validation (modelled from
the spec's data model as `wellShaped`, the schema file not being part of the
provided source), the advisory check emits exactly the warning lines described
by the spec: one line `Warning: role "<role>" references unknown model
"<model>"` for each (role, candidate) pair whose candidate is not a key of
`models`, in role document order then candidate sequence order, with no
deduplication and no sorting, absent `roles`/`candidates`/`models` treated as
empty — i.e. the scan returns `specWarnings` and raises nothing. -/
theorem advisory_emits_spec_warnings (cfg : Yaml) (h : wellShaped cfg = true) :
    advisory cfg = (specWarnings cfg, none) :=
  advisory_spec cfg h

theorem advisory_emits_spec_warnings_witness :
    wellShaped sampleCfg = true ∧ advisory sampleCfg = (specWarnings sampleCfg, none) :=
  ⟨rfl, advisory_emits_spec_warnings sampleCfg rfl⟩

/-- C2: for every configuration that conforms to the schema (modelled from the
spec's data model as `wellShaped`), the tool prints `Validation passed
(advisory).`, then the advisory warning lines, then `Done.`, and exits with
code 0, regardless of how many warnings were emitted. -/
theorem success_branch_output (env : Env) (p cfg_path : String) (rest : List String)
    (text : String) (cfg : Yaml) (stext : String) (schema : Yaml)
    (h1 : env.fs cfg_path = some text) (h2 : env.safe_load text = .ok cfg)
    (h3 : env.fs SCHEMA_PATH = some stext) (h4 : env.json_load stext = .ok schema)
    (h5 : env.validate cfg schema = none) (h6 : wellShaped cfg = true) :
    (main env (p :: cfg_path :: rest)).stdout =
      "Validation passed (advisory)." :: (specWarnings cfg ++ ["Done."]) ∧
    (main env (p :: cfg_path :: rest)).exit = some 0 := by
  have ha := advisory_spec cfg h6
  constructor <;> simp [main, withConfig, h1, h2, h3, h4, h5, successRun, ha]

theorem success_branch_output_witness :
    (main okEnv ["validate-prompt-stack.py", "prompt-stack.yaml"]).stdout =
      "Validation passed (advisory)." :: (specWarnings sampleCfg ++ ["Done."]) ∧
    (main okEnv ["validate-prompt-stack.py", "prompt-stack.yaml"]).exit = some 0 :=
  success_branch_output okEnv "validate-prompt-stack.py" "prompt-stack.yaml" []
    "cfg-text" sampleCfg "schema-text" (.map []) rfl rfl rfl rfl rfl rfl

/-- C3: for every configuration that parses but fails schema validation, the
tool prints `Validation failed:` followed by the validation error's
description, exits with code 1, and runs no advisory check: the output is
exactly those two prints, with no warning line and no `Done.` line. -/
theorem failure_branch_output (env : Env) (p cfg_path : String) (rest : List String)
    (text : String) (cfg : Yaml) (stext : String) (schema : Yaml) (msg : String)
    (h1 : env.fs cfg_path = some text) (h2 : env.safe_load text = .ok cfg)
    (h3 : env.fs SCHEMA_PATH = some stext) (h4 : env.json_load stext = .ok schema)
    (h5 : env.validate cfg schema = some msg) :
    main env (p :: cfg_path :: rest) =
      ⟨["Validation failed:", msg], some 1, none, [cfg_path, SCHEMA_PATH]⟩ := by
  simp [main, withConfig, h1, h2, h3, h4, h5]

theorem failure_branch_output_witness :
    main rejectEnv ["validate-prompt-stack.py", "prompt-stack.yaml"] =
      ⟨["Validation failed:", "None is not of type 'object'"], some 1, none,
        ["prompt-stack.yaml", SCHEMA_PATH]⟩ :=
  failure_branch_output rejectEnv "validate-prompt-stack.py" "prompt-stack.yaml" []
    "cfg-text" sampleCfg "schema-text" (.map []) "None is not of type 'object'"
    rfl rfl rfl rfl rfl

/-- C4: for every invocation with no configuration-path argument (fewer than
two entries in `sys.argv`), the tool prints exactly the usage line, exits with
code 2, and opens no file. -/
theorem usage_branch (env : Env) (argv : List String) (h : argv.length < 2) :
    main env argv = ⟨[usageLine], some 2, none, []⟩ := by
  rcases argv with _ | ⟨a, _ | ⟨b, t⟩⟩
  · rfl
  · rfl
  · exfalso
    simp [List.length_cons] at h
    omega

theorem usage_branch_witness :
    main okEnv ["validate-prompt-stack.py"] = ⟨[usageLine], some 2, none, []⟩ :=
  usage_branch okEnv ["validate-prompt-stack.py"] (by decide)

/-- C5: whenever the configuration file is missing or unreadable, its text is
not valid YAML, or the schema file is missing, unreadable or not valid JSON,
the error propagates uncaught: the run raises a `PyError` and reaches no
`sys.exit`, so none of the defined exit codes (0, 1, 2) is produced by the
tool itself. -/
theorem uncaught_error_paths (env : Env) (p cfg_path : String) (rest : List String)
    (h : env.fs cfg_path = none
       ∨ (∃ t e, env.fs cfg_path = some t ∧ env.safe_load t = .error e)
       ∨ (∃ t cfg, env.fs cfg_path = some t ∧ env.safe_load t = .ok cfg ∧
            env.fs SCHEMA_PATH = none)
       ∨ (∃ t cfg st e, env.fs cfg_path = some t ∧ env.safe_load t = .ok cfg ∧
            env.fs SCHEMA_PATH = some st ∧ env.json_load st = .error e)) :
    (main env (p :: cfg_path :: rest)).exit = none ∧
    (main env (p :: cfg_path :: rest)).err.isSome = true := by
  rcases h with h | ⟨t, e, h1, h2⟩ | ⟨t, cfg, h1, h2, h3⟩ | ⟨t, cfg, st, e, h1, h2, h3, h4⟩ <;>
    constructor <;> simp [main, withConfig, *]

theorem uncaught_error_paths_witness :
    (main noFileEnv ["validate-prompt-stack.py", "prompt-stack.yaml"]).exit = none ∧
    (main noFileEnv ["validate-prompt-stack.py", "prompt-stack.yaml"]).err.isSome = true :=
  uncaught_error_paths noFileEnv "validate-prompt-stack.py" "prompt-stack.yaml" []
    (Or.inl rfl)

/-- C6: for schema-valid configurations (the `mkCfg` family), the warning
lines a role contributes are a function of that role's entry and the models
alone — they are the same block wherever the role sits and whatever the other
roles are — and permuting a role's candidates permutes that role's warning
lines accordingly (the filtered-then-formatted list is permuted exactly as the
candidates were). -/
theorem candidate_order_sensitivity (models : List (String × Yaml))
    (pre post : List (String × List String)) (r : String) (cs cs' : List String)
    (hperm : cs.Perm cs') :
    (advisory (mkCfg (pre ++ (r, cs) :: post) models)).1 =
        pre.flatMap (roleBlock models) ++ (roleBlock models (r, cs)
          ++ post.flatMap (roleBlock models)) ∧
    (roleBlock models (r, cs)).Perm (roleBlock models (r, cs')) := by
  constructor
  · rw [advisory_mkCfg]
    simp [List.flatMap_append, List.flatMap_cons]
  · exact (hperm.filter _).map _

theorem candidate_order_sensitivity_witness :
    (advisory (mkCfg ([] ++ ("writer", ["x", "y"]) :: [("other", ["a"])])
        [("gpt-x", .map [])])).1 =
      [].flatMap (roleBlock [("gpt-x", .map [])]) ++
        (roleBlock [("gpt-x", .map [])] ("writer", ["x", "y"]) ++
          [("other", ["a"])].flatMap (roleBlock [("gpt-x", .map [])])) ∧
    (roleBlock [("gpt-x", .map [])] ("writer", ["x", "y"])).Perm
      (roleBlock [("gpt-x", .map [])] ("writer", ["y", "x"])) :=
  candidate_order_sensitivity [("gpt-x", .map [])] [] [("other", ["a"])]
    "writer" ["x", "y"] ["y", "x"] (List.Perm.swap "y" "x" [])

/-- C7: the run is deterministic in its file inputs and argument list: two
runs whose filesystems agree on the configuration path and on the schema path
(the only files read), with the same parsing and validation library, produce
the same stdout, exit code, uncaught error and opened files. -/
theorem deterministic_runs (e1 e2 : Env) (p cfg_path : String) (rest : List String)
    (hcfg : e1.fs cfg_path = e2.fs cfg_path)
    (hschema : e1.fs SCHEMA_PATH = e2.fs SCHEMA_PATH)
    (hl : e1.safe_load = e2.safe_load) (hj : e1.json_load = e2.json_load)
    (hv : e1.validate = e2.validate) :
    main e1 (p :: cfg_path :: rest) = main e2 (p :: cfg_path :: rest) := by
  simp only [main, withConfig]
  rw [hcfg, hschema, hl, hj, hv]

/-- A copy of `okEnv` whose filesystem differs only at a path the tool never
reads. -/
def okEnvShifted : Env :=
  { okEnv with fs := fun p => if p = "unrelated.txt" then some "x" else okEnv.fs p }

theorem deterministic_runs_witness :
    main okEnv ["validate-prompt-stack.py", "prompt-stack.yaml"] =
      main okEnvShifted ["validate-prompt-stack.py", "prompt-stack.yaml"] :=
  deterministic_runs okEnv okEnvShifted "validate-prompt-stack.py" "prompt-stack.yaml" []
    rfl rfl rfl rfl rfl

/-- C8: every run opens at most two files — the configuration file named by
the first argument and the schema file at `SCHEMA_PATH` — and nothing else;
the model's only output channel is the stdout line list, and it never mutates
the filesystem. -/
theorem reads_at_most_two_files (env : Env) (argv : List String) :
    (main env argv).opened = [] ∨
      ∃ c, argv[1]? = some c ∧
        ((main env argv).opened = [c] ∨ (main env argv).opened = [c, SCHEMA_PATH]) := by
  rcases argv with _ | ⟨a, _ | ⟨c, t⟩⟩
  · left; rfl
  · left; rfl
  · right
    refine ⟨c, by simp, ?_⟩
    simp only [main]
    rcases h1 : env.fs c with _ | text
    · simp [withConfig, h1]
    · rcases h2 : env.safe_load text with e | cfg
      · simp [withConfig, h1, h2]
      · rcases h3 : env.fs SCHEMA_PATH with _ | st
        · simp [withConfig, h1, h2, h3]
        · rcases h4 : env.json_load st with e | schema
          · simp [withConfig, h1, h2, h3, h4]
          · rcases h5 : env.validate cfg schema with _ | msg
            · rcases hadv : advisory cfg with ⟨w, oe⟩
              cases oe <;> simp [withConfig, h1, h2, h3, h4, h5, successRun, hadv]
            · simp [withConfig, h1, h2, h3, h4, h5]

/-- C9: if the parsed document is not a mapping (e.g. `null` from an empty
file, a scalar, or a sequence), or some role definition is not a mapping, and
schema validation nevertheless passes, the run prints `Validation passed
(advisory).` and then fails with an unhandled error: no exit code is reached
and no `Done.` line is printed, instead of the missing structure being treated
as empty. -/
theorem nonmapping_config_crashes (env : Env) (p cfg_path : String) (rest : List String)
    (text : String) (cfg : Yaml) (stext : String) (schema : Yaml)
    (h1 : env.fs cfg_path = some text) (h2 : env.safe_load text = .ok cfg)
    (h3 : env.fs SCHEMA_PATH = some stext) (h4 : env.json_load stext = .ok schema)
    (h5 : env.validate cfg schema = none)
    (h6 : cfg.isMap = false ∨
      ∃ es rls, cfg = .map es ∧ es.lookup "roles" = some (.map rls) ∧
        ∃ rc ∈ rls, rc.2.isMap = false) :
    (main env (p :: cfg_path :: rest)).exit = none ∧
    (main env (p :: cfg_path :: rest)).err.isSome = true ∧
    (main env (p :: cfg_path :: rest)).stdout.head? =
      some "Validation passed (advisory)." ∧
    "Done." ∉ (main env (p :: cfg_path :: rest)).stdout := by
  have herr : (advisory cfg).2.isSome := by
    rcases h6 with h | ⟨es, rls, rfl, hr, hbad⟩
    · exact advisory_err_of_nonmap cfg h
    · exact advisory_err_of_bad_defn es rls hr hbad
  rcases hadv : advisory cfg with ⟨warns, oe⟩
  rcases oe with _ | e
  · rw [hadv] at herr
    simp at herr
  · have hmain : main env (p :: cfg_path :: rest) =
        ⟨"Validation passed (advisory)." :: warns, none, some e,
          [cfg_path, SCHEMA_PATH]⟩ := by
      simp [main, withConfig, h1, h2, h3, h4, h5, successRun, hadv]
    rw [hmain]
    refine ⟨rfl, rfl, rfl, ?_⟩
    intro hmem
    rcases List.mem_cons.mp hmem with h | h
    · exact absurd h (by decide)
    · exact done_not_mem_advisory cfg (by rw [hadv]; exact h)

theorem nonmapping_config_crashes_witness :
    (main nullEnv ["validate-prompt-stack.py", "prompt-stack.yaml"]).exit = none ∧
    (main nullEnv ["validate-prompt-stack.py", "prompt-stack.yaml"]).err.isSome = true ∧
    (main nullEnv ["validate-prompt-stack.py", "prompt-stack.yaml"]).stdout.head? =
      some "Validation passed (advisory)." ∧
    "Done." ∉ (main nullEnv ["validate-prompt-stack.py", "prompt-stack.yaml"]).stdout :=
  nonmapping_config_crashes nullEnv "validate-prompt-stack.py" "prompt-stack.yaml" []
    "cfg-text" .null "schema-text" (.map []) rfl rfl rfl rfl rfl (Or.inl rfl)

/-- C10: two schema-passing runs whose configurations are mappings with equal
`roles` values and agreeing `models` values (equal, or mappings with the same
keys — so the contents of individual model definitions are irrelevant) produce
identical success-branch output and the same exit code. -/
theorem output_depends_only_on_roles_models
    (e1 e2 : Env) (p1 p2 cp1 cp2 : String) (r1 r2 : List String)
    (t1 t2 st1 st2 : String) (es1 es2 : List (String × Yaml)) (s1 s2 : Yaml)
    (h11 : e1.fs cp1 = some t1) (h12 : e1.safe_load t1 = .ok (.map es1))
    (h13 : e1.fs SCHEMA_PATH = some st1) (h14 : e1.json_load st1 = .ok s1)
    (h15 : e1.validate (.map es1) s1 = none)
    (h21 : e2.fs cp2 = some t2) (h22 : e2.safe_load t2 = .ok (.map es2))
    (h23 : e2.fs SCHEMA_PATH = some st2) (h24 : e2.json_load st2 = .ok s2)
    (h25 : e2.validate (.map es2) s2 = none)
    (hroles : es1.lookup "roles" = es2.lookup "roles")
    (hmodels : modelsAgree (es1.lookup "models") (es2.lookup "models")) :
    (main e1 (p1 :: cp1 :: r1)).stdout = (main e2 (p2 :: cp2 :: r2)).stdout ∧
    (main e1 (p1 :: cp1 :: r1)).exit = (main e2 (p2 :: cp2 :: r2)).exit := by
  have ha := advisory_congr es1 es2 hroles hmodels
  have hm1 : main e1 (p1 :: cp1 :: r1) = successRun (.map es1) [cp1, SCHEMA_PATH] := by
    simp [main, withConfig, h11, h12, h13, h14, h15]
  have hm2 : main e2 (p2 :: cp2 :: r2) = successRun (.map es2) [cp2, SCHEMA_PATH] := by
    simp [main, withConfig, h21, h22, h23, h24, h25]
  rw [hm1, hm2]
  rcases hadv : advisory (.map es2) with ⟨w, oe⟩
  rw [hadv] at ha
  cases oe <;> simp [successRun, ha, hadv]

/-- Two documents sharing `roles` and model keys but differing elsewhere. -/
def cfgA : Yaml :=
  .map [("roles", .map [("w", .map [("candidates", .seq [.str "gpt-x", .str "ghost"])])]),
        ("models", .map [("gpt-x", .map [("provider", .str "x")])]),
        ("note", .int 1)]

def cfgB : Yaml :=
  .map [("roles", .map [("w", .map [("candidates", .seq [.str "gpt-x", .str "ghost"])])]),
        ("models", .map [("gpt-x", .map [])])]

def envA : Env :=
  { okEnv with safe_load := fun t => if t = "cfg-text" then .ok cfgA else .error .yamlError }

def envB : Env :=
  { okEnv with safe_load := fun t => if t = "cfg-text" then .ok cfgB else .error .yamlError }

theorem output_depends_only_on_roles_models_witness :
    (main envA ["validate-prompt-stack.py", "prompt-stack.yaml"]).stdout =
      (main envB ["validate-prompt-stack.py", "prompt-stack.yaml"]).stdout ∧
    (main envA ["validate-prompt-stack.py", "prompt-stack.yaml"]).exit =
      (main envB ["validate-prompt-stack.py", "prompt-stack.yaml"]).exit :=
  output_depends_only_on_roles_models envA envB
    "validate-prompt-stack.py" "validate-prompt-stack.py"
    "prompt-stack.yaml" "prompt-stack.yaml" [] []
    "cfg-text" "cfg-text" "schema-text" "schema-text" _ _ (.map []) (.map [])
    rfl rfl rfl rfl rfl rfl rfl rfl rfl rfl rfl
    (Or.inr ⟨[("gpt-x", .map [("provider", .str "x")])], [("gpt-x", .map [])],
      rfl, rfl, rfl⟩)

end ValidatePromptStack
